import Mathlib

/-
Verification of the Track-Region Crossing and Temporal Impact Engine of the
weather-api-demo repository. The definitions below are a shallow embedding of
src/test_county_map.py: timestamps are exact rational numbers of hours on one
global timeline, calendar dates are day numbers, the geometry engine (shapely,
an external collaborator) is modelled by the observable boolean predicates the
detector calls, and the ambient current time is passed in explicitly as a
parameter called now.
-/

set_option linter.unusedVariables false

namespace WeatherDemo

/-- Model of the valid_time field of a raw track record: absent or empty
(falsy in Python), present but rejected by datetime.fromisoformat, or parsed
to a point in time measured in hours. -/
inductive TimeField where
  | missing : TimeField
  | badFormat : TimeField
  | parsed (t : Rat) : TimeField
deriving DecidableEq

/-- Raw track record as returned by the data API (one dict of track_records in
test_county_map.py). lat and lon model r.get of the source; the attribute bag
keeps the three fields the crossing loop snapshots on lines 190 to 192:
maximum_sustained_wind_speed_knots, minimum_sea_level_pressure_hpa and
radius_34_knot_winds_ne_km. -/
structure TrackRecord where
  lat : Option Rat
  lon : Option Rat
  valid_time : TimeField
  wind_speed_knots : Option Rat
  pressure_hpa : Option Rat
  radius_km : Option Rat
deriving DecidableEq

/-- Python truthiness of an optional numeric field: None and 0 are falsy. -/
def numTruthy : Option Rat → Bool
  | none => false
  | some x => x != 0

/-- The filter of the comprehension building track_coords on source line 110:
if r.get(lat) and r.get(lon). -/
def hasCoords (r : TrackRecord) : Bool := numTruthy r.lat && numTruthy r.lon

/-- A coordinate pair (latitude, longitude). -/
abbrev Point := Rat × Rat

/-- Coordinates of the retained samples, in order (source line 110). -/
def track_coords (recs : List TrackRecord) : List Point :=
  recs.filterMap fun r =>
    if hasCoords r then some (r.lat.getD 0, r.lon.getD 0) else none

/-- Consecutive coordinate pairs, the segments of the track
(source lines 111 to 115). -/
def track_lines (pts : List Point) : List (Point × Point) := pts.zip pts.tail

/-- Abstract polygon geometry: the four shapely predicates the detector calls.
The geometry engine is an external collaborator, so a region geometry is
modelled by its observable predicates on points and segments. -/
structure RegionGeom where
  containsPt : Point → Bool
  touchesPt : Point → Bool
  intersectsSeg : Point × Point → Bool
  crossesSeg : Point × Point → Bool

/-- Geometry field of a GeoJSON feature as the detector sees it
(source lines 136 to 143): a Polygon or MultiPolygon that constructs
successfully, a geometry of another type (skipped by the else branch with
continue), or a geometry whose construction raises an exception. -/
inductive GeomSpec where
  | poly (g : RegionGeom) : GeomSpec
  | multi (g : RegionGeom) : GeomSpec
  | otherType : GeomSpec
  | buildError : GeomSpec

/-- One GeoJSON feature: id none models a missing or falsy id, which the loop
skips on lines 132 to 134. -/
structure Feature where
  id : Option String
  geom : GeomSpec

/-- start_time of the track (source lines 120 to 127): the timestamp of the
first RAW record when present and parseable, otherwise the current time. -/
def start_time (now : Rat) (recs : List TrackRecord) : Rat :=
  match recs with
  | [] => now
  | r :: _ =>
    match r.valid_time with
    | TimeField.parsed t => t
    | _ => now

/-- Round to the nearest integer, ties to the even candidate, the rounding of
Python round on exactly representable values. -/
def roundHalfEven (q : Rat) : Int :=
  if q - (⌊q⌋ : Rat) < 1 / 2 then ⌊q⌋
  else if (1 : Rat) / 2 < q - (⌊q⌋ : Rat) then ⌊q⌋ + 1
  else if Even ⌊q⌋ then ⌊q⌋ else ⌊q⌋ + 1

/-- Python round(x, 2) on the exact rational value. -/
def round2 (q : Rat) : Rat := ((roundHalfEven (q * 100) : Int) : Rat) / 100

/-- A point triggers when the polygon contains or touches it
(source line 151). -/
def pointTrigger (g : RegionGeom) (q : Point) : Bool :=
  g.containsPt q || g.touchesPt q

/-- A segment triggers when the polygon intersects or crosses it
(source line 165). -/
def segTrigger (g : RegionGeom) (s : Point × Point) : Bool :=
  g.intersectsSeg s || g.crossesSeg s

/-- Crossing time for a point trigger at index i (source lines 153 to 159):
the parseable timestamp of record i, else start_time plus 6 hours times i. -/
def pointCrossTime (t0 : Rat) (recs : List TrackRecord) (i : Nat) : Rat :=
  match recs[i]? with
  | some r =>
    match r.valid_time with
    | TimeField.parsed t => t
    | _ => t0 + 6 * (i : Rat)
  | none => t0 + 6 * (i : Rat)

/-- Crossing time for a segment trigger at index i (source lines 167 to 176):
the midpoint of the parseable timestamps of records i and i+1, else
start_time plus 6 i plus 3 hours. -/
def segCrossTime (t0 : Rat) (recs : List TrackRecord) (i : Nat) : Rat :=
  match recs[i]?, recs[i + 1]? with
  | some r1, some r2 =>
    match r1.valid_time, r2.valid_time with
    | TimeField.parsed t1, TimeField.parsed t2 => t1 + (t2 - t1) / 2
    | _, _ => t0 + (6 * (i : Rat) + 3)
  | _, _ => t0 + (6 * (i : Rat) + 3)

/-- First triggering track element for a region (source lines 145 to 177):
the first point index whose point the region contains or touches; only when no
point triggers, the first segment index that intersects or crosses. The
boolean is true for a point trigger and false for a segment trigger. -/
def firstCrossing (g : RegionGeom) (pts : List Point)
    (segs : List (Point × Point)) : Option (Bool × Nat) :=
  match List.findIdx? (pointTrigger g) pts with
  | some i => some (true, i)
  | none =>
    match List.findIdx? (segTrigger g) segs with
    | some i => some (false, i)
    | none => none

/-- Row appended to county_data (source lines 183 to 193). expected_time keeps
the crossing time as a rational number of hours; the source formats it as a
string with strftime. -/
structure CrossingRecord where
  county_fips : String
  expected_time : Rat
  relative_hours : Rat
  relative_days : Rat
  lat : Option Rat
  lon : Option Rat
  wind_speed_knots : Option Rat
  pressure_hpa : Option Rat
  radius_km : Option Rat
deriving DecidableEq

/-- Placeholder record for the list access default; the index used by the
detector is always in bounds, so it is never read. -/
def blankRecord : TrackRecord :=
  { lat := none, lon := none, valid_time := TimeField.missing
    wind_speed_knots := none, pressure_hpa := none, radius_km := none }

/-- Build the county_data row for a crossing at index idx with crossing time
ct. The snapshot is read from the RAW record list at idx (source line 180:
record = track_records[first_crossing_idx]), although idx counts positions of
the FILTERED coordinate list. relative_days divides the unrounded hours, as on
source line 187. -/
def mkCrossingRecord (t0 : Rat) (recs : List TrackRecord) (fips : String)
    (idx : Nat) (ct : Rat) : CrossingRecord :=
  let r := (recs[idx]?).getD blankRecord
  { county_fips := fips
    expected_time := ct
    relative_hours := round2 (ct - t0)
    relative_days := round2 ((ct - t0) / 24)
    lat := r.lat
    lon := r.lon
    wind_speed_knots := r.wind_speed_knots
    pressure_hpa := r.pressure_hpa
    radius_km := r.radius_km }

/-- Row built for a triggering element: source lines 150 to 160 for a point
trigger (true), lines 163 to 177 for a segment trigger (false). -/
def recordOfCrossing (t0 : Rat) (recs : List TrackRecord) (fips : String) :
    Bool × Nat → CrossingRecord
  | (true, i) => mkCrossingRecord t0 recs fips i (pointCrossTime t0 recs i)
  | (false, i) => mkCrossingRecord t0 recs fips i (segCrossTime t0 recs i)

/-- Crossing search and row construction for one region geometry. -/
def processGeom (t0 : Rat) (recs : List TrackRecord) (pts : List Point)
    (segs : List (Point × Point)) (fips : String) (g : RegionGeom) :
    Option CrossingRecord :=
  (firstCrossing g pts segs).map (recordOfCrossing t0 recs fips)

/-- Per-feature body of the county loop (source lines 131 to 193). The result
lives in Except: an error models an exception raised while processing this
feature, which the source catches only at whole-function level. -/
def processFeature (t0 : Rat) (recs : List TrackRecord) (pts : List Point)
    (segs : List (Point × Point)) (f : Feature) :
    Except Unit (Option CrossingRecord) :=
  match f.id with
  | none => Except.ok none
  | some fips =>
    match f.geom with
    | GeomSpec.otherType => Except.ok none
    | GeomSpec.buildError => Except.error ()
    | GeomSpec.poly g => Except.ok (processGeom t0 recs pts segs fips g)
    | GeomSpec.multi g => Except.ok (processGeom t0 recs pts segs fips g)

/-- The county loop over all features, in order. One exception aborts the
remainder and discards every row gathered so far, because the try block spans
the whole source function. -/
def collectCrossings (t0 : Rat) (recs : List TrackRecord) (pts : List Point)
    (segs : List (Point × Point)) : List Feature → Except Unit (List CrossingRecord)
  | [] => Except.ok []
  | f :: fs =>
    match processFeature t0 recs pts segs f with
    | Except.error e => Except.error e
    | Except.ok none => collectCrossings t0 recs pts segs fs
    | Except.ok (some c) =>
      match collectCrossings t0 recs pts segs fs with
      | Except.error e => Except.error e
      | Except.ok l => Except.ok (c :: l)

/-- Insertion into a list sorted ascending by a rational key. -/
def insertSorted {α : Type} (key : α → Rat) (c : α) : List α → List α
  | [] => [c]
  | d :: l =>
    if key c ≤ key d then c :: d :: l
    else d :: insertSorted key c l

/-- Insertion sort ascending by a rational key, modelling sort_values. -/
def sortByKey {α : Type} (key : α → Rat) : List α → List α
  | [] => []
  | c :: l => insertSorted key c (sortByKey key l)

/-- Sort of the result rows ascending by relative_hours (sort_values on source
line 195). -/
def sortByHours : List CrossingRecord → List CrossingRecord :=
  sortByKey CrossingRecord.relative_hours

/-- get_counties_crossed_with_timing (source lines 100 to 201), with the
ambient current time passed in as now. An empty input returns the empty
result; an exception escaping any iteration of the loop is caught by the
whole-function handler, which also returns the empty result. -/
def get_counties_crossed_with_timing (now : Rat) (recs : List TrackRecord)
    (features : List Feature) : List CrossingRecord :=
  if recs.isEmpty then []
  else
    match collectCrossings (start_time now recs) recs (track_coords recs)
        (track_lines (track_coords recs)) features with
    | Except.error _ => []
    | Except.ok l => sortByHours l

/-- Exposure row of df_travelers: county fips, calendar date as a day number,
non-negative traveler count. -/
structure ExposureRecord where
  county_fips : String
  date : Int
  expected_travelers : Nat
deriving DecidableEq

/-- Row of df_impact (source lines 399 to 409). impact_date is a day number;
expected_time keeps the possibly re-stamped timestamp in hours. -/
structure ImpactRecord where
  county_fips : String
  impact_date : Int
  expected_time : Rat
  relative_hours : Rat
  relative_days : Rat
  travelers_impacted : Nat
  wind_speed_knots : Option Rat
  pressure_hpa : Option Rat
  radius_km : Option Rat
deriving DecidableEq

/-- Impact date of a crossing row (source lines 383 to 389). With a scenario
start day s the source adds relative_days to midnight of s as an exact
timedelta and then takes the calendar date with strftime, which is s plus the
floor of relative_days; without a scenario it takes the date component of
expected_time. -/
def impactDate (scenario_start : Option Int) (c : CrossingRecord) : Int :=
  match scenario_start with
  | some s => s + ⌊c.relative_days⌋
  | none => ⌊c.expected_time / 24⌋

/-- Time of day component, in hours, of a timestamp measured in hours. -/
def timeOfDay (t : Rat) : Rat := t - 24 * (⌊t / 24⌋ : Rat)

/-- Sort of the impact rows ascending by relative_hours (sort_values on source
line 411). -/
def sortImpactByHours : List ImpactRecord → List ImpactRecord :=
  sortByKey ImpactRecord.relative_hours

/-- calculate_impacted_travelers (source lines 370 to 411). For each crossing
row the exposure lookup takes the FIRST row matching county and impact date
(boolean filter plus iloc 0 on lines 392 to 398); a lookup miss produces no
row. With a scenario the expected_time is re-stamped to the new date keeping
its time of day (line 402). The terminal sort_values raises past the function
on an empty row collection in the source; the model returns the empty list,
and no claim concerns that case. -/
def calculate_impacted_travelers (dfC : List CrossingRecord)
    (dfT : List ExposureRecord) (scenario_start : Option Int) :
    List ImpactRecord :=
  if dfC.isEmpty || dfT.isEmpty then []
  else sortImpactByHours (dfC.filterMap fun c =>
    match dfT.find? (fun t => t.county_fips == c.county_fips &&
        t.date == impactDate scenario_start c) with
    | none => none
    | some t => some
      { county_fips := c.county_fips
        impact_date := impactDate scenario_start c
        expected_time :=
          match scenario_start with
          | some _ => (impactDate scenario_start c : Rat) * 24 +
              timeOfDay c.expected_time
          | none => c.expected_time
        relative_hours := c.relative_hours
        relative_days := c.relative_days
        travelers_impacted := t.expected_travelers
        wind_speed_knots := c.wind_speed_knots
        pressure_hpa := c.pressure_hpa
        radius_km := c.radius_km })

/-- Row of the side-by-side comparison table (source lines 836 to 845) before
the difference column: county, traveler counts from each side, a count absent
(NaN in pandas) when that side has no row for the county. -/
structure CompRow where
  county_fips : String
  original_travelers : Option Nat
  scenario_travelers : Option Nat
deriving DecidableEq

/-- Comparison rows contributed by one baseline row: one row per scenario row
of the same county, or a single row with an absent scenario side when the
scenario has none. -/
def matchedRows (scen : List ImpactRecord) (b : ImpactRecord) : List CompRow :=
  if (scen.filter fun s => s.county_fips == b.county_fips).isEmpty then
    [{ county_fips := b.county_fips
       original_travelers := some b.travelers_impacted
       scenario_travelers := none }]
  else (scen.filter fun s => s.county_fips == b.county_fips).map fun s =>
    { county_fips := b.county_fips
      original_travelers := some b.travelers_impacted
      scenario_travelers := some s.travelers_impacted }

/-- Comparison rows of the scenario rows whose county has no baseline row. -/
def scenOnlyRows (base scen : List ImpactRecord) : List CompRow :=
  (scen.filter fun s =>
      !(base.any fun b => b.county_fips == s.county_fips)).map fun s =>
    { county_fips := s.county_fips
      original_travelers := none
      scenario_travelers := some s.travelers_impacted }

/-- Outer merge on county_fips of the baseline and scenario impact tables
(pd.merge with how outer, source lines 836 to 845): every baseline row paired
with each scenario row of the same county, or with an absent scenario side
when there is none, followed by the scenario-only rows. -/
def comparison_rows (base scen : List ImpactRecord) : List CompRow :=
  base.flatMap (matchedRows scen) ++ scenOnlyRows base scen

/-- Scenario-side value of a comparison row with the pandas fillna 0. -/
def scenVal (r : CompRow) : Int := (r.scenario_travelers.getD 0 : Int)

/-- Original-side value of a comparison row with the pandas fillna 0. -/
def origVal (r : CompRow) : Int := (r.original_travelers.getD 0 : Int)

/-- The difference column (source line 846): scenario count minus original
count, with an absent side filled as 0. -/
def rowDiff (r : CompRow) : Int :=
  (r.scenario_travelers.getD 0 : Int) - (r.original_travelers.getD 0 : Int)

/-- Total travelers of an impact table (the sum on source line 819). -/
def totalTravelers (l : List ImpactRecord) : Nat :=
  (l.map ImpactRecord.travelers_impacted).sum

/-- Percent change of the scenario totals (source lines 819 to 820): the
difference over the baseline total times 100, guarded to 0 when the baseline
total is not positive. -/
def pct_change (baseTotal scenTotal : Nat) : Rat :=
  if 0 < baseTotal then
    ((scenTotal : Rat) - (baseTotal : Rat)) / (baseTotal : Rat) * 100
  else 0

/-- Definition following the words of the spec, for comparison with the
implemented start_time: the timestamp of the first RETAINED sample (first
sample passing the coordinate filter), or the current time when that sample
has no parseable timestamp. -/
def spec_start_time (now : Rat) (recs : List TrackRecord) : Rat :=
  match recs.find? hasCoords with
  | some r =>
    match r.valid_time with
    | TimeField.parsed t => t
    | _ => now
  | none => now

/-- The element k is the earliest triggering track element of a region in the
sense of the claims: a point trigger at the first triggering point index or,
only when no point triggers at all, a segment trigger at the first triggering
segment index. -/
def isEarliestTrigger (g : RegionGeom) (pts : List Point)
    (segs : List (Point × Point)) : Bool × Nat → Prop
  | (true, i) =>
      i < pts.length ∧ pointTrigger g (pts.getD i (0, 0)) = true ∧
        ∀ j, j < i → pointTrigger g (pts.getD j (0, 0)) = false
  | (false, i) =>
      (∀ q ∈ pts, pointTrigger g q = false) ∧ i < segs.length ∧
        segTrigger g (segs.getD i ((0, 0), (0, 0))) = true ∧
        ∀ j, j < i → segTrigger g (segs.getD j ((0, 0), (0, 0))) = false

/-- Count of the first impact row of a county in a table, 0 when the county is
absent: the lookup notion used to state the outer join property. -/
def findCount (l : List ImpactRecord) (k : String) : Int :=
  match l.find? (fun r => r.county_fips == k) with
  | some r => (r.travelers_impacted : Int)
  | none => 0

/-
Concrete data used by counterexamples and witnesses. recA and recB form the
two-sample track of the concrete scenario in the spec, at the same position
with timestamps 0 and 6 hours.
-/

/-- Sample at (25, -70) with timestamp 0 hours. -/
def recA : TrackRecord :=
  { lat := some 25, lon := some (-70), valid_time := TimeField.parsed 0
    wind_speed_knots := some 50, pressure_hpa := some 990, radius_km := some 100 }

/-- Sample at (25, -70) with timestamp 6 hours. -/
def recB : TrackRecord :=
  { lat := some 25, lon := some (-70), valid_time := TimeField.parsed 6
    wind_speed_knots := some 60, pressure_hpa := some 980, radius_km := some 110 }

/-- Geometry triggered by no point and by every segment. -/
def geomSegOnly : RegionGeom :=
  { containsPt := fun _ => false, touchesPt := fun _ => false
    intersectsSeg := fun _ => true, crossesSeg := fun _ => false }

/-- Feature B: region crossed by segment only. -/
def featB : Feature := { id := some "B", geom := GeomSpec.poly geomSegOnly }

/-- Feature E: region whose geometry construction raises. -/
def featErr : Feature := { id := some "E", geom := GeomSpec.buildError }

/-- Sample with missing lat, timestamp 0 hours: dropped by the coordinate
filter. -/
def recNoLat : TrackRecord :=
  { lat := none, lon := some 1, valid_time := TimeField.parsed 0
    wind_speed_knots := some 10, pressure_hpa := none, radius_km := none }

/-- Retained sample at (1, 1) with timestamp 6 hours and wind 20. -/
def recKeep : TrackRecord :=
  { lat := some 1, lon := some 1, valid_time := TimeField.parsed 6
    wind_speed_knots := some 20, pressure_hpa := none, radius_km := none }

/-- Retained sample at (2, 2) with timestamp 12 hours and wind 30. -/
def recFar : TrackRecord :=
  { lat := some 2, lon := some 2, valid_time := TimeField.parsed 12
    wind_speed_knots := some 30, pressure_hpa := none, radius_km := none }

/-- Geometry containing exactly the point (2, 2). -/
def geomAt22 : RegionGeom :=
  { containsPt := fun q => q.1 == 2 && q.2 == 2, touchesPt := fun _ => false
    intersectsSeg := fun _ => false, crossesSeg := fun _ => false }

/-- Feature C: region containing exactly the point (2, 2). -/
def featC : Feature := { id := some "C", geom := GeomSpec.poly geomAt22 }

/-- Retained sample at (3, 3) with timestamp 18 hours and wind 40. -/
def recFar2 : TrackRecord :=
  { lat := some 3, lon := some 3, valid_time := TimeField.parsed 18
    wind_speed_knots := some 40, pressure_hpa := none, radius_km := none }

/-- Geometry triggered by no point and exactly by the segment from latitude 2
to latitude 3, the second segment of the filtered track. -/
def geomSeg1 : RegionGeom :=
  { containsPt := fun _ => false, touchesPt := fun _ => false
    intersectsSeg := fun s => s.1.1 == 2 && s.2.1 == 3
    crossesSeg := fun _ => false }

/-- Feature D: region crossed only by the second filtered segment. -/
def featD : Feature := { id := some "D", geom := GeomSpec.poly geomSeg1 }

/-- Sample with lat 0 and lon 50, both fields present. -/
def recZeroLat : TrackRecord :=
  { lat := some 0, lon := some 50, valid_time := TimeField.missing
    wind_speed_knots := none, pressure_hpa := none, radius_km := none }

/-- Crossing row with a fractional relative_days of one half. -/
def crossHalf : CrossingRecord :=
  { county_fips := "X", expected_time := 12, relative_hours := 12
    relative_days := 1 / 2, lat := none, lon := none
    wind_speed_knots := none, pressure_hpa := none, radius_km := none }

/-- Exposure row for county X on day 0 with 5 travelers. -/
def expoFive : ExposureRecord :=
  { county_fips := "X", date := 0, expected_travelers := 5 }

/-- Second exposure row for the same county X and day 0, with 7 travelers. -/
def expoSeven : ExposureRecord :=
  { county_fips := "X", date := 0, expected_travelers := 7 }

/-- The impact row emitted for crossHalf under scenario start day 0. -/
def impactHalfOut : ImpactRecord :=
  { county_fips := "X", impact_date := 0, expected_time := 12
    relative_hours := 12, relative_days := 1 / 2, travelers_impacted := 5
    wind_speed_knots := none, pressure_hpa := none, radius_km := none }

/-- The crossing row emitted for featC on the track with a dropped head: the
snapshot fields are those of recKeep, the raw record at position 1, not of the
triggering retained point, whose record is recFar. -/
def crossMismatch : CrossingRecord :=
  { county_fips := "C", expected_time := 6, relative_hours := 6
    relative_days := 1 / 4, lat := some 1, lon := some 1
    wind_speed_knots := some 20, pressure_hpa := none, radius_km := none }

/-- The crossing row emitted for featB on the track recA recB: the segment
midpoint time 3 hours. -/
def crossSegOut : CrossingRecord :=
  { county_fips := "B", expected_time := 3, relative_hours := 3
    relative_days := 3 / 25, lat := some 25, lon := some (-70)
    wind_speed_knots := some 50, pressure_hpa := some 990, radius_km := some 100 }

/-- Baseline impact row for county X with 5 travelers. -/
def impactX5 : ImpactRecord :=
  { county_fips := "X", impact_date := 0, expected_time := 12
    relative_hours := 12, relative_days := 1 / 2, travelers_impacted := 5
    wind_speed_knots := none, pressure_hpa := none, radius_km := none }

/-- Scenario impact row for county Y with 7 travelers. -/
def impactY7 : ImpactRecord :=
  { county_fips := "Y", impact_date := 3, expected_time := 80
    relative_hours := 80, relative_days := 10 / 3, travelers_impacted := 7
    wind_speed_knots := none, pressure_hpa := none, radius_km := none }

/-
Helper lemmas shared by the claim theorems.
-/

theorem insertSorted_perm {α : Type} (key : α → Rat) (c : α) (l : List α) :
    (insertSorted key c l).Perm (c :: l) := by
  induction l with
  | nil => simp [insertSorted]
  | cons d l ih =>
    by_cases h : key c ≤ key d
    · simp [insertSorted, h]
    · simp only [insertSorted, if_neg h]
      exact (ih.cons d).trans (List.Perm.swap c d l)

theorem sortByKey_perm {α : Type} (key : α → Rat) (l : List α) :
    (sortByKey key l).Perm l := by
  induction l with
  | nil => simp [sortByKey]
  | cons c l ih =>
    exact (insertSorted_perm key c (sortByKey key l)).trans (ih.cons c)

theorem sortByHours_perm (l : List CrossingRecord) : (sortByHours l).Perm l :=
  sortByKey_perm _ l

theorem sortImpactByHours_perm (l : List ImpactRecord) :
    (sortImpactByHours l).Perm l :=
  sortByKey_perm _ l

theorem recordOfCrossing_fips (t0 : Rat) (recs : List TrackRecord)
    (fips : String) (k : Bool × Nat) :
    (recordOfCrossing t0 recs fips k).county_fips = fips := by
  rcases k with ⟨b, i⟩
  cases b <;> simp [recordOfCrossing, mkCrossingRecord]

theorem processFeature_ok_some (t0 : Rat) (recs : List TrackRecord)
    (pts : List Point) (segs : List (Point × Point)) (f : Feature)
    (c : CrossingRecord)
    (h : processFeature t0 recs pts segs f = Except.ok (some c)) :
    ∃ g, (f.geom = GeomSpec.poly g ∨ f.geom = GeomSpec.multi g) ∧
      f.id = some c.county_fips ∧
      ∃ k, firstCrossing g pts segs = some k ∧
        c = recordOfCrossing t0 recs c.county_fips k := by
  obtain ⟨fid, geom⟩ := f
  cases fid with
  | none => simp [processFeature] at h
  | some fips =>
    cases geom with
    | otherType => simp [processFeature] at h
    | buildError => simp [processFeature] at h
    | poly g =>
      refine ⟨g, Or.inl rfl, ?_⟩
      cases hk : firstCrossing g pts segs with
      | none => simp [processFeature, processGeom, hk] at h
      | some k =>
        have hc : recordOfCrossing t0 recs fips k = c := by
          simpa [processFeature, processGeom, hk] using h
        have hfips : c.county_fips = fips := by
          rw [← hc]; exact recordOfCrossing_fips t0 recs fips k
        exact ⟨by rw [hfips], k, rfl, by rw [hfips, hc]⟩
    | multi g =>
      refine ⟨g, Or.inr rfl, ?_⟩
      cases hk : firstCrossing g pts segs with
      | none => simp [processFeature, processGeom, hk] at h
      | some k =>
        have hc : recordOfCrossing t0 recs fips k = c := by
          simpa [processFeature, processGeom, hk] using h
        have hfips : c.county_fips = fips := by
          rw [← hc]; exact recordOfCrossing_fips t0 recs fips k
        exact ⟨by rw [hfips], k, rfl, by rw [hfips, hc]⟩

theorem collectCrossings_ok_mem (t0 : Rat) (recs : List TrackRecord)
    (pts : List Point) (segs : List (Point × Point)) (fs : List Feature)
    (l : List CrossingRecord)
    (h : collectCrossings t0 recs pts segs fs = Except.ok l) :
    ∀ c ∈ l, ∃ f ∈ fs, processFeature t0 recs pts segs f = Except.ok (some c) := by
  induction fs generalizing l with
  | nil =>
    simp only [collectCrossings] at h
    cases h
    simp
  | cons f fs ih =>
    simp only [collectCrossings] at h
    cases hp : processFeature t0 recs pts segs f with
    | error e => rw [hp] at h; cases h
    | ok o =>
      cases o with
      | none =>
        rw [hp] at h
        intro c hc
        obtain ⟨f2, hf2, hpf⟩ := ih l h c hc
        exact ⟨f2, List.mem_cons_of_mem f hf2, hpf⟩
      | some c0 =>
        rw [hp] at h
        cases hrest : collectCrossings t0 recs pts segs fs with
        | error e => rw [hrest] at h; cases h
        | ok l2 =>
          rw [hrest] at h
          cases h
          intro c hc
          rcases List.mem_cons.mp hc with hceq | hcmem
          · exact ⟨f, List.mem_cons_self f fs, by rw [hp, hceq]⟩
          · obtain ⟨f2, hf2, hpf⟩ := ih l2 hrest c hcmem
            exact ⟨f2, List.mem_cons_of_mem f hf2, hpf⟩

theorem collectCrossings_ok_length (t0 : Rat) (recs : List TrackRecord)
    (pts : List Point) (segs : List (Point × Point)) (fs : List Feature)
    (l : List CrossingRecord)
    (h : collectCrossings t0 recs pts segs fs = Except.ok l) :
    l.length ≤ fs.length := by
  induction fs generalizing l with
  | nil => simp only [collectCrossings] at h; cases h; simp
  | cons f fs ih =>
    simp only [collectCrossings] at h
    cases hp : processFeature t0 recs pts segs f with
    | error e => rw [hp] at h; cases h
    | ok o =>
      cases o with
      | none =>
        rw [hp] at h
        exact Nat.le_succ_of_le (ih l h)
      | some c0 =>
        rw [hp] at h
        cases hrest : collectCrossings t0 recs pts segs fs with
        | error e => rw [hrest] at h; cases h
        | ok l2 =>
          rw [hrest] at h
          cases h
          simpa using Nat.succ_le_succ (ih l2 hrest)

theorem collectCrossings_ok_countP (t0 : Rat) (recs : List TrackRecord)
    (pts : List Point) (segs : List (Point × Point)) (fs : List Feature)
    (l : List CrossingRecord) (F : String)
    (h : collectCrossings t0 recs pts segs fs = Except.ok l) :
    l.countP (fun c => c.county_fips == F) ≤
      fs.countP (fun f => f.id == some F) := by
  induction fs generalizing l with
  | nil => simp only [collectCrossings] at h; cases h; simp
  | cons f fs ih =>
    simp only [collectCrossings] at h
    cases hp : processFeature t0 recs pts segs f with
    | error e => rw [hp] at h; cases h
    | ok o =>
      cases o with
      | none =>
        rw [hp] at h
        calc l.countP (fun c => c.county_fips == F)
            ≤ fs.countP (fun f => f.id == some F) := ih l h
          _ ≤ (f :: fs).countP (fun f => f.id == some F) := by
              rw [List.countP_cons]; omega
      | some c0 =>
        rw [hp] at h
        cases hrest : collectCrossings t0 recs pts segs fs with
        | error e => rw [hrest] at h; cases h
        | ok l2 =>
          rw [hrest] at h
          cases h
          rw [List.countP_cons, List.countP_cons]
          have hle := ih l2 hrest
          have hfip : f.id = some c0.county_fips := by
            obtain ⟨g, hg, hid, hk⟩ :=
              processFeature_ok_some t0 recs pts segs f c0 hp
            exact hid
          by_cases hF : c0.county_fips = F
          · have h1 : (c0.county_fips == F) = true := by simp [hF]
            have h2 : (f.id == some F) = true := by simp [hfip, hF]
            simp only [h1, h2, if_true]
            omega
          · have h1 : (c0.county_fips == F) = false := by simp [hF]
            simp only [h1, Bool.false_eq_true, if_false]
            omega

theorem collectCrossings_error_of_buildError (t0 : Rat)
    (recs : List TrackRecord) (pts : List Point)
    (segs : List (Point × Point)) (fs : List Feature) (f : Feature)
    (hf : f ∈ fs) (hid : f.id ≠ none) (hgeom : f.geom = GeomSpec.buildError) :
    collectCrossings t0 recs pts segs fs = Except.error () := by
  induction fs with
  | nil => cases hf
  | cons f0 fs ih =>
    rcases List.mem_cons.mp hf with hfeq | hfmem
    · subst hfeq
      obtain ⟨fid, geom⟩ := f
      cases fid with
      | none => exact absurd rfl hid
      | some fips =>
        simp only at hgeom
        subst hgeom
        simp [collectCrossings, processFeature]
    · have hrest := ih hfmem
      simp only [collectCrossings, hrest]
      cases hp : processFeature t0 recs pts segs f0 with
      | error e => rfl
      | ok o => cases o <;> rfl

theorem firstCrossing_earliest (g : RegionGeom) (pts : List Point)
    (segs : List (Point × Point)) (k : Bool × Nat)
    (h : firstCrossing g pts segs = some k) :
    isEarliestTrigger g pts segs k := by
  unfold firstCrossing at h
  cases hp : List.findIdx? (pointTrigger g) pts with
  | some i =>
    rw [hp] at h
    cases h
    obtain ⟨hlen, hfind⟩ := List.findIdx?_eq_some_iff_findIdx_eq.mp hp
    obtain ⟨htrig, hbefore⟩ := (List.findIdx_eq hlen).mp hfind
    refine ⟨hlen, ?_, ?_⟩
    · rw [List.getD_eq_getElem?_getD, List.getElem?_eq_getElem hlen,
        Option.getD_some]
      exact htrig
    · intro j hj
      have hjlen : j < pts.length := lt_trans hj hlen
      rw [List.getD_eq_getElem?_getD, List.getElem?_eq_getElem hjlen,
        Option.getD_some]
      exact hbefore j hj
  | none =>
    rw [hp] at h
    have hnone : ∀ q ∈ pts, pointTrigger g q = false :=
      List.findIdx?_eq_none_iff.mp hp
    cases hs : List.findIdx? (segTrigger g) segs with
    | some i =>
      rw [hs] at h
      cases h
      obtain ⟨hlen, hfind⟩ := List.findIdx?_eq_some_iff_findIdx_eq.mp hs
      obtain ⟨htrig, hbefore⟩ := (List.findIdx_eq hlen).mp hfind
      refine ⟨hnone, hlen, ?_, ?_⟩
      · rw [List.getD_eq_getElem?_getD, List.getElem?_eq_getElem hlen,
          Option.getD_some]
        exact htrig
      · intro j hj
        have hjlen : j < segs.length := lt_trans hj hlen
        rw [List.getD_eq_getElem?_getD, List.getElem?_eq_getElem hjlen,
          Option.getD_some]
        exact hbefore j hj
    | none => rw [hs] at h; cases h

/-
Claim theorems.
-/

/-- C1 counterexample: with the two-sample track recA recB, the region of
featB satisfies the crossing predicate and alone produces its record, yet as
soon as the collection also holds featErr, whose geometry construction raises,
the whole batch comes back empty: the error is not confined to the failing
region. -/
theorem C1_counterexample :
    (get_counties_crossed_with_timing 99 [recA, recB] [featB]).length = 1 ∧
    get_counties_crossed_with_timing 99 [recA, recB] [featErr, featB] = [] := by
  constructor
  · norm_num [get_counties_crossed_with_timing, track_coords, track_lines,
      start_time, collectCrossings, processFeature, processGeom, firstCrossing,
      recordOfCrossing, mkCrossingRecord, pointCrossTime, segCrossTime,
      sortByHours, sortByKey, insertSorted, hasCoords, numTruthy, pointTrigger,
      segTrigger, round2, recA, recB, featB, geomSegOnly, blankRecord,
      List.filterMap, List.findIdx?_cons, List.findIdx?_nil, beq_iff_eq]
  · norm_num [get_counties_crossed_with_timing, track_coords, track_lines,
      start_time, collectCrossings, processFeature, processGeom, firstCrossing,
      recordOfCrossing, mkCrossingRecord, pointCrossTime, segCrossTime,
      sortByHours, sortByKey, insertSorted, hasCoords, numTruthy, pointTrigger,
      segTrigger, round2, recA, recB, featB, featErr, geomSegOnly, blankRecord,
      List.filterMap, List.findIdx?_cons, List.findIdx?_nil, beq_iff_eq]

/-- C1 (corrected): a geometry error raised while processing any region with a
usable id is caught only by the whole-function handler: the batch returns the
empty result, so the records of every other region are lost, although no
exception propagates to the caller. -/
theorem C1_error_aborts_whole_batch (now : Rat) (recs : List TrackRecord)
    (features : List Feature) (f : Feature) (hf : f ∈ features)
    (hid : f.id ≠ none) (hgeom : f.geom = GeomSpec.buildError) :
    get_counties_crossed_with_timing now recs features = [] := by
  unfold get_counties_crossed_with_timing
  split
  · rfl
  · rw [collectCrossings_error_of_buildError (start_time now recs) recs
      (track_coords recs) (track_lines (track_coords recs)) features f hf hid
      hgeom]

/-- C1 witness: the amended statement applied to the concrete failing batch. -/
theorem C1_error_aborts_whole_batch_witness :
    get_counties_crossed_with_timing 99 [recA, recB] [featErr, featB] = [] :=
  C1_error_aborts_whole_batch 99 [recA, recB] [featErr, featB] featErr
    (by simp) (by simp [featErr]) rfl

/-- C2 counterexample: the first raw sample recNoLat is dropped for a missing
lat but still determines start_time: the code yields 0, the timestamp of the
raw head, while the first retained sample recKeep has parseable timestamp 6,
so the value demanded by the claim differs from the computed one. -/
theorem C2_counterexample :
    start_time 99 [recNoLat, recKeep] = 0 ∧
    [recNoLat, recKeep].find? hasCoords = some recKeep ∧
    recKeep.valid_time = TimeField.parsed 6 ∧
    spec_start_time 99 [recNoLat, recKeep] = 6 ∧
    start_time 99 [recNoLat, recKeep] ≠ spec_start_time 99 [recNoLat, recKeep] := by
  refine ⟨rfl, ?_, rfl, ?_, ?_⟩
  · norm_num [List.find?, hasCoords, numTruthy, recNoLat, recKeep, bne,
      beq_eq_decide]
  · norm_num [spec_start_time, List.find?, hasCoords, numTruthy, recNoLat,
      recKeep, bne, beq_eq_decide]
  · intro h
    rw [show start_time 99 [recNoLat, recKeep] = 0 from rfl] at h
    rw [show spec_start_time 99 [recNoLat, recKeep] = 6 by
      norm_num [spec_start_time, List.find?, hasCoords, numTruthy, recNoLat,
        recKeep, bne, beq_eq_decide]] at h
    norm_num at h

/-- C2 (corrected): start_time is derived from the first RAW sample whether or
not it is retained: its timestamp when parseable, otherwise the current time.
Samples dropped for missing lat or lon are not skipped for this purpose. -/
theorem C2_start_time_from_raw_head (now : Rat) (r : TrackRecord)
    (rest : List TrackRecord) :
    (∀ t, r.valid_time = TimeField.parsed t → start_time now (r :: rest) = t) ∧
    ((∀ t, r.valid_time ≠ TimeField.parsed t) → start_time now (r :: rest) = now) := by
  constructor
  · intro t ht
    simp [start_time, ht]
  · intro h
    cases hv : r.valid_time with
    | parsed t => exact absurd hv (h t)
    | missing => simp [start_time, hv]
    | badFormat => simp [start_time, hv]

/-- C2 witness: the amended statement evaluated on the dropped-head track and
on a track whose head has no timestamp. -/
theorem C2_start_time_from_raw_head_witness :
    start_time 99 [recNoLat, recKeep] = 0 ∧ start_time 5 [recZeroLat] = 5 :=
  ⟨(C2_start_time_from_raw_head 99 recNoLat [recKeep]).1 0 rfl,
   (C2_start_time_from_raw_head 5 recZeroLat []).2
     (by intro t; simp [recZeroLat])⟩

/-- C4 counterexample: a sample with lat and lon both present but lat equal to
0 is excluded by normalization, against the claim that samples with both
fields present, zeroes included, are retained. -/
theorem C4_counterexample :
    recZeroLat.lat = some 0 ∧ recZeroLat.lon = some 50 ∧
    track_coords [recZeroLat] = [] := by
  refine ⟨rfl, rfl, ?_⟩
  simp [track_coords, hasCoords, numTruthy, recZeroLat]

/-- C4 (corrected): normalization excludes exactly the samples whose lat or
lon is missing OR equal to 0, the Python truthiness filter; every other sample
is retained with its coordinates, in the original relative order, and no error
is raised for excluded samples. -/
theorem C4_truthiness_filter (recs : List TrackRecord) :
    track_coords recs =
      (recs.filter fun r =>
        decide (r.lat ≠ none ∧ r.lat ≠ some 0 ∧ r.lon ≠ none ∧ r.lon ≠ some 0)).map
        fun r => (r.lat.getD 0, r.lon.getD 0) := by
  have hiff : ∀ r : TrackRecord, hasCoords r =
      decide (r.lat ≠ none ∧ r.lat ≠ some 0 ∧ r.lon ≠ none ∧ r.lon ≠ some 0) := by
    intro r
    obtain ⟨lat, lon, v, w, p, ra⟩ := r
    cases lat with
    | none => simp [hasCoords, numTruthy]
    | some x =>
      cases lon with
      | none => simp [hasCoords, numTruthy]
      | some y =>
        by_cases hx : x = 0 <;> by_cases hy : y = 0 <;>
          simp [hasCoords, numTruthy, hx, hy]
  induction recs with
  | nil => rfl
  | cons r l ih =>
    rw [track_coords, List.filterMap_cons, List.filter_cons, ← hiff r]
    cases hc : hasCoords r
    · simpa [hc] using ih
    · simpa [hc] using ih

/-- C8: the percent change computation is total and never divides by zero: a
zero baseline total yields exactly 0 whatever the scenario total is, and a
nonzero baseline total yields the difference over the baseline total times
100. -/
theorem C8_pct_change_guarded (base scen : List ImpactRecord) :
    (totalTravelers base = 0 →
      pct_change (totalTravelers base) (totalTravelers scen) = 0) ∧
    (totalTravelers base ≠ 0 →
      pct_change (totalTravelers base) (totalTravelers scen) =
        ((totalTravelers scen : Rat) - (totalTravelers base : Rat)) /
          (totalTravelers base : Rat) * 100) := by
  constructor
  · intro h
    simp [pct_change, h]
  · intro h
    simp [pct_change, Nat.pos_of_ne_zero h]

/-- C8 witness: zero baseline with nonzero scenario yields 0; the nonzero case
evaluated on totals 5 and 7. -/
theorem C8_pct_change_guarded_witness :
    pct_change (totalTravelers []) (totalTravelers [impactY7]) = 0 ∧
    pct_change (totalTravelers [impactX5]) (totalTravelers [impactY7]) = 40 := by
  constructor
  · exact (C8_pct_change_guarded [] [impactY7]).1 rfl
  · have h := (C8_pct_change_guarded [impactX5] [impactY7]).2
      (by simp [totalTravelers, impactX5])
    rw [h]
    norm_num [totalTravelers, impactX5, impactY7]

/-- C9 counterexample: a crossing row with relative_days equal to one half and
scenario start day 0 produces the impact date 0, the truncated date, while the
claim demands rounding half up to day 1. -/
theorem C9_counterexample :
    (calculate_impacted_travelers [crossHalf] [expoFive] (some 0)).map
        ImpactRecord.impact_date = [0] ∧
    crossHalf.relative_days = 1 / 2 ∧ (0 : Int) ≠ 1 := by
  refine ⟨?_, rfl, by norm_num⟩
  norm_num [calculate_impacted_travelers, impactDate, timeOfDay, crossHalf,
    expoFive, sortImpactByHours, sortByKey, insertSorted, List.find?,
    List.filterMap, beq_iff_eq]

/-- C9 (corrected): the impact date of an emitted record is scenario_start
plus the FLOOR of relative_days, the calendar date reached by the exact time
offset, not a half-up rounding; without a scenario it is the calendar date
component of the crossing time. -/
theorem C9_impact_date_floor (dfC : List CrossingRecord)
    (dfT : List ExposureRecord) (scen : Option Int) (r : ImpactRecord)
    (hr : r ∈ calculate_impacted_travelers dfC dfT scen) :
    (∀ s, scen = some s → r.impact_date = s + ⌊r.relative_days⌋) ∧
    (scen = none → r.impact_date = ⌊r.expected_time / 24⌋) := by
  unfold calculate_impacted_travelers at hr
  split at hr
  · cases hr
  · have hr2 := (sortImpactByHours_perm _).mem_iff.mp hr
    obtain ⟨c, hc, hbuild⟩ := List.mem_filterMap.mp hr2
    cases hfind : dfT.find?
        (fun t => t.county_fips == c.county_fips &&
          t.date == impactDate scen c) with
    | none => rw [hfind] at hbuild; cases hbuild
    | some t =>
      rw [hfind] at hbuild
      cases hbuild
      constructor
      · intro s hs
        subst hs
        simp [impactDate]
      · intro hs
        subst hs
        simp [impactDate]

/-- C9 witness: the amended statement applied to the concrete scenario run
with relative_days one half, giving impact date 0 plus floor of one half. -/
theorem C9_impact_date_floor_witness :
    impactHalfOut.impact_date = 0 + ⌊impactHalfOut.relative_days⌋ := by
  have hout : calculate_impacted_travelers [crossHalf] [expoFive] (some 0) =
      [impactHalfOut] := by
    norm_num [calculate_impacted_travelers, impactDate, timeOfDay, crossHalf,
      expoFive, impactHalfOut, sortImpactByHours, sortByKey, insertSorted,
      List.find?, List.filterMap, beq_iff_eq]
  exact (C9_impact_date_floor [crossHalf] [expoFive] (some 0) impactHalfOut
    (by rw [hout]; exact List.mem_cons_self _ _)).1 0 rfl

/-- C3 counterexample: on the track recNoLat recKeep recFar, whose head is
dropped for a missing lat, the region of featC is triggered by retained point
index 1, whose record is recFar with timestamp 12 and wind 30; the emitted
record instead snapshots raw record index 1, recKeep, with timestamp 6 and
wind 20. -/
theorem C3_counterexample :
    (get_counties_crossed_with_timing 99 [recNoLat, recKeep, recFar]
        [featC]).map (fun c => (c.expected_time, c.wind_speed_knots)) =
      [(6, some 20)] ∧
    track_coords [recNoLat, recKeep, recFar] = [(1, 1), (2, 2)] ∧
    List.findIdx? (pointTrigger geomAt22) [(1, 1), (2, 2)] = some 1 ∧
    ([recNoLat, recKeep, recFar].filter hasCoords)[1]? = some recFar ∧
    recFar.valid_time = TimeField.parsed 12 ∧
    recFar.wind_speed_knots = some 30 ∧
    ((6 : Rat), (some 20 : Option Rat)) ≠ ((12 : Rat), (some 30 : Option Rat)) := by
  refine ⟨?_, ?_, ?_, ?_, rfl, rfl, ?_⟩
  · norm_num [get_counties_crossed_with_timing, track_coords, track_lines,
      start_time, collectCrossings, processFeature, processGeom, firstCrossing,
      recordOfCrossing, mkCrossingRecord, pointCrossTime, segCrossTime,
      sortByHours, sortByKey, insertSorted, hasCoords, numTruthy, pointTrigger,
      segTrigger, round2, roundHalfEven, Int.even_iff, recNoLat, recKeep, recFar, featC,
      geomAt22, blankRecord, List.filterMap, List.findIdx?_cons,
      List.findIdx?_nil, bne, beq_eq_decide]
  · norm_num [track_coords, hasCoords, numTruthy, recNoLat, recKeep, recFar,
      List.filterMap, bne, beq_eq_decide]
  · norm_num [pointTrigger, geomAt22, List.findIdx?_cons, List.findIdx?_nil,
      bne, beq_eq_decide]
  · norm_num [hasCoords, numTruthy, recNoLat, recKeep, recFar, List.filter,
      bne, beq_eq_decide]
  · norm_num

/-- C3 (corrected): the snapshot and the timestamp of a point-triggered
crossing record are read from the RAW record list at the crossing index,
although that index counts positions of the FILTERED point sequence; the
fields are those of the triggering retained point only when no earlier raw
sample was dropped. -/
theorem C3_snapshot_from_raw_index (t0 : Rat) (recs : List TrackRecord)
    (pts : List Point) (segs : List (Point × Point)) (fips : String)
    (g : RegionGeom) (i : Nat) (r : TrackRecord) (c : CrossingRecord)
    (hpt : List.findIdx? (pointTrigger g) pts = some i)
    (hr : recs[i]? = some r)
    (hc : processGeom t0 recs pts segs fips g = some c) :
    c.lat = r.lat ∧ c.lon = r.lon ∧ c.wind_speed_knots = r.wind_speed_knots ∧
    c.pressure_hpa = r.pressure_hpa ∧ c.radius_km = r.radius_km ∧
    (∀ t, r.valid_time = TimeField.parsed t → c.expected_time = t) := by
  have hfc : firstCrossing g pts segs = some (true, i) := by
    unfold firstCrossing
    rw [hpt]
  unfold processGeom at hc
  rw [hfc] at hc
  have hrec : recordOfCrossing t0 recs fips (true, i) = c := by
    simpa using hc
  rw [← hrec]
  refine ⟨?_, ?_, ?_, ?_, ?_, ?_⟩
  · simp [recordOfCrossing, mkCrossingRecord, hr]
  · simp [recordOfCrossing, mkCrossingRecord, hr]
  · simp [recordOfCrossing, mkCrossingRecord, hr]
  · simp [recordOfCrossing, mkCrossingRecord, hr]
  · simp [recordOfCrossing, mkCrossingRecord, hr]
  · intro t ht
    simp [recordOfCrossing, mkCrossingRecord, pointCrossTime, hr, ht]

/-- C3 witness: the amended statement applied to the dropped-head track, where
the emitted record carries the fields of recKeep, the raw record at the
filtered crossing index 1. -/
theorem C3_snapshot_from_raw_index_witness :
    crossMismatch.wind_speed_knots = recKeep.wind_speed_knots ∧
    crossMismatch.expected_time = 6 := by
  have hc : processGeom 0 [recNoLat, recKeep, recFar]
      (track_coords [recNoLat, recKeep, recFar])
      (track_lines (track_coords [recNoLat, recKeep, recFar])) "C" geomAt22 =
      some crossMismatch := by
    norm_num [processGeom, firstCrossing, recordOfCrossing, mkCrossingRecord,
      pointCrossTime, track_coords, track_lines, hasCoords, numTruthy,
      pointTrigger, segTrigger, round2, roundHalfEven, Int.even_iff, recNoLat, recKeep,
      recFar, geomAt22, blankRecord, crossMismatch, List.filterMap,
      List.findIdx?_cons, List.findIdx?_nil, bne, beq_eq_decide]
  have hpt : List.findIdx? (pointTrigger geomAt22)
      (track_coords [recNoLat, recKeep, recFar]) = some 1 := by
    norm_num [track_coords, hasCoords, numTruthy, pointTrigger, geomAt22,
      recNoLat, recKeep, recFar, List.filterMap, List.findIdx?_cons,
      List.findIdx?_nil, bne, beq_eq_decide]
  have h := C3_snapshot_from_raw_index 0 [recNoLat, recKeep, recFar]
    (track_coords [recNoLat, recKeep, recFar])
    (track_lines (track_coords [recNoLat, recKeep, recFar])) "C" geomAt22 1
    recKeep crossMismatch hpt rfl hc
  exact ⟨h.2.2.1, h.2.2.2.2.2 6 rfl⟩

/-- C5 counterexample: on the track with a dropped head, no point triggers the
region of featD and the first triggering segment is FILTERED segment 1, whose
endpoints are the retained points of recFar (timestamp 12) and recFar2
(timestamp 18), so the claimed midpoint of the endpoint timestamps is 15; the
code instead midpoints the RAW records at positions 1 and 2, recKeep
(timestamp 6) and recFar (timestamp 12), and emits crossing time 9. -/
theorem C5_counterexample :
    (get_counties_crossed_with_timing 99 [recNoLat, recKeep, recFar, recFar2]
        [featD]).map CrossingRecord.expected_time = [9] ∧
    track_coords [recNoLat, recKeep, recFar, recFar2] =
      [(1, 1), (2, 2), (3, 3)] ∧
    List.findIdx? (pointTrigger geomSeg1)
      (track_coords [recNoLat, recKeep, recFar, recFar2]) = none ∧
    List.findIdx? (segTrigger geomSeg1)
      (track_lines (track_coords [recNoLat, recKeep, recFar, recFar2])) =
      some 1 ∧
    ([recNoLat, recKeep, recFar, recFar2].filter hasCoords)[1]? = some recFar ∧
    ([recNoLat, recKeep, recFar, recFar2].filter hasCoords)[2]? = some recFar2 ∧
    recFar.valid_time = TimeField.parsed 12 ∧
    recFar2.valid_time = TimeField.parsed 18 ∧
    (12 : Rat) + (18 - 12) / 2 = 15 ∧
    (9 : Rat) ≠ 15 := by
  refine ⟨?_, ?_, ?_, ?_, ?_, ?_, rfl, rfl, by norm_num, by norm_num⟩
  · norm_num [get_counties_crossed_with_timing, track_coords, track_lines,
      start_time, collectCrossings, processFeature, processGeom, firstCrossing,
      recordOfCrossing, mkCrossingRecord, pointCrossTime, segCrossTime,
      sortByHours, sortByKey, insertSorted, hasCoords, numTruthy, pointTrigger,
      segTrigger, round2, roundHalfEven, Int.even_iff, recNoLat, recKeep,
      recFar, recFar2, featD, geomSeg1, blankRecord, List.filterMap,
      List.findIdx?_cons, List.findIdx?_nil, bne, beq_eq_decide]
  · norm_num [track_coords, hasCoords, numTruthy, recNoLat, recKeep, recFar,
      recFar2, List.filterMap, bne, beq_eq_decide]
  · norm_num [track_coords, hasCoords, numTruthy, pointTrigger, geomSeg1,
      recNoLat, recKeep, recFar, recFar2, List.filterMap, List.findIdx?_cons,
      List.findIdx?_nil, bne, beq_eq_decide]
  · norm_num [track_coords, track_lines, hasCoords, numTruthy, segTrigger,
      geomSeg1, recNoLat, recKeep, recFar, recFar2, List.filterMap,
      List.findIdx?_cons, List.findIdx?_nil, bne, beq_eq_decide]
  · norm_num [hasCoords, numTruthy, recNoLat, recKeep, recFar, recFar2,
      List.filter, bne, beq_eq_decide]
  · norm_num [hasCoords, numTruthy, recNoLat, recKeep, recFar, recFar2,
      List.filter, bne, beq_eq_decide]

/-- C5 (corrected): when no track point triggers a region and segment i is the
first triggering segment, the crossing time is the exact arithmetic midpoint
of the parseable timestamps of the RAW records at positions i and i+1,
although i counts segments of the FILTERED point sequence; those records are
the segment endpoints only when no earlier raw sample was dropped. When either
of those raw timestamps is missing, the crossing time is start_time plus 6 i
plus 3 hours. -/
theorem C5_segment_midpoint (t0 : Rat) (recs : List TrackRecord)
    (pts : List Point) (segs : List (Point × Point)) (fips : String)
    (g : RegionGeom) (i : Nat) (r1 r2 : TrackRecord) (c : CrossingRecord)
    (hnopt : List.findIdx? (pointTrigger g) pts = none)
    (hseg : List.findIdx? (segTrigger g) segs = some i)
    (hc : processGeom t0 recs pts segs fips g = some c)
    (h1 : recs[i]? = some r1) (h2 : recs[i + 1]? = some r2) :
    (∀ t1 t2, r1.valid_time = TimeField.parsed t1 →
      r2.valid_time = TimeField.parsed t2 →
      c.expected_time = t1 + (t2 - t1) / 2) ∧
    ((r1.valid_time = TimeField.missing ∨ r2.valid_time = TimeField.missing) →
      c.expected_time = t0 + (6 * (i : Rat) + 3)) := by
  have hfc : firstCrossing g pts segs = some (false, i) := by
    unfold firstCrossing
    rw [hnopt, hseg]
  unfold processGeom at hc
  rw [hfc] at hc
  have hrec : recordOfCrossing t0 recs fips (false, i) = c := by
    simpa using hc
  rw [← hrec]
  constructor
  · intro t1 t2 ht1 ht2
    simp [recordOfCrossing, mkCrossingRecord, segCrossTime, h1, h2, ht1, ht2]
  · intro hmiss
    rcases hmiss with hm | hm
    · cases hv2 : r2.valid_time <;>
        simp [recordOfCrossing, mkCrossingRecord, segCrossTime, h1, h2, hm, hv2]
    · cases hv1 : r1.valid_time <;>
        simp [recordOfCrossing, mkCrossingRecord, segCrossTime, h1, h2, hm, hv1]

/-- C5 witness: the concrete two-sample track with timestamps 0 and 6 hours
and the segment-only region of featB: the crossing time is the midpoint 3 and
relative_hours is 3, as in the concrete scenario of the claim. -/
theorem C5_segment_midpoint_witness :
    crossSegOut.expected_time = 0 + (6 - 0) / 2 ∧
    crossSegOut.expected_time = 3 ∧ crossSegOut.relative_hours = 3 := by
  have hc : processGeom 0 [recA, recB] (track_coords [recA, recB])
      (track_lines (track_coords [recA, recB])) "B" geomSegOnly =
      some crossSegOut := by
    norm_num [processGeom, firstCrossing, recordOfCrossing, mkCrossingRecord,
      segCrossTime, track_coords, track_lines, hasCoords, numTruthy,
      pointTrigger, segTrigger, round2, roundHalfEven, Int.even_iff, recA, recB, geomSegOnly,
      blankRecord, crossSegOut, List.filterMap, List.findIdx?_cons,
      List.findIdx?_nil, bne, beq_eq_decide]
  have hnopt : List.findIdx? (pointTrigger geomSegOnly)
      (track_coords [recA, recB]) = none := by
    norm_num [track_coords, hasCoords, numTruthy, pointTrigger, geomSegOnly,
      recA, recB, List.filterMap, List.findIdx?_cons, List.findIdx?_nil, bne,
      beq_eq_decide]
  have hseg : List.findIdx? (segTrigger geomSegOnly)
      (track_lines (track_coords [recA, recB])) = some 0 := by
    norm_num [track_coords, track_lines, hasCoords, numTruthy, segTrigger,
      geomSegOnly, recA, recB, List.filterMap, List.findIdx?_cons,
      List.findIdx?_nil, bne, beq_eq_decide]
  have h := C5_segment_midpoint 0 [recA, recB] (track_coords [recA, recB])
    (track_lines (track_coords [recA, recB])) "B" geomSegOnly 0 recA recB
    crossSegOut hnopt hseg hc rfl rfl
  refine ⟨h.1 0 6 rfl rfl, by norm_num [crossSegOut], by norm_num [crossSegOut]⟩

theorem countP_filterMap_le {α β : Type} (f : α → Option β) (p : β → Bool)
    (q : α → Bool) (l : List α)
    (h : ∀ a b, f a = some b → p b = true → q a = true) :
    (l.filterMap f).countP p ≤ l.countP q := by
  induction l with
  | nil => simp
  | cons a l ih =>
    rw [List.filterMap_cons, List.countP_cons]
    cases hf : f a with
    | none =>
      calc (List.filterMap f l).countP p ≤ l.countP q := ih
        _ ≤ l.countP q + (if q a = true then 1 else 0) := by omega
    | some b =>
      rw [List.countP_cons]
      by_cases hp : p b = true
      · have hq := h a b hf hp
        simp only [hp, hq, if_true]
        omega
      · have hp2 : p b = false := by
          revert hp
          cases p b <;> simp
        simp only [hp2, Bool.false_eq_true, if_false]
        omega

/-- C10: every emitted impact record takes its count from the FIRST exposure
row matching its county and impact date, so later duplicate entries for the
same county and date are ignored, never summed; and each region contributes at
most as many impact records as it has crossing rows, hence exactly one when
the crossing table has one row for it and an exposure row matches. -/
theorem C10_first_exposure_match (dfC : List CrossingRecord)
    (dfT : List ExposureRecord) (scen : Option Int) (F : String) :
    (∀ r ∈ calculate_impacted_travelers dfC dfT scen,
      (dfT.find? (fun t => t.county_fips == r.county_fips &&
          t.date == r.impact_date)).map ExposureRecord.expected_travelers =
        some r.travelers_impacted) ∧
    ((calculate_impacted_travelers dfC dfT scen).countP
        (fun r => r.county_fips == F) ≤
      dfC.countP (fun c => c.county_fips == F)) := by
  constructor
  · intro r hr
    unfold calculate_impacted_travelers at hr
    split at hr
    · cases hr
    · have hr2 := (sortImpactByHours_perm _).mem_iff.mp hr
      obtain ⟨c, hc, hbuild⟩ := List.mem_filterMap.mp hr2
      cases hfind : dfT.find? (fun t => t.county_fips == c.county_fips &&
          t.date == impactDate scen c) with
      | none => rw [hfind] at hbuild; cases hbuild
      | some t =>
        rw [hfind] at hbuild
        cases hbuild
        simp [hfind]
  · unfold calculate_impacted_travelers
    split
    · simp
    · rw [(sortImpactByHours_perm _).countP_eq]
      apply countP_filterMap_le
      intro c r hbuild hp
      cases hfind : dfT.find? (fun t => t.county_fips == c.county_fips &&
          t.date == impactDate scen c) with
      | none => rw [hfind] at hbuild; cases hbuild
      | some t =>
        rw [hfind] at hbuild
        cases hbuild
        simpa using hp

/-- C10 witness: with two exposure rows for the same county and date carrying
5 and 7 travelers, the emitted record carries 5, the first row in input order,
and the record count for the county stays at most the crossing row count. -/
theorem C10_first_exposure_match_witness :
    ([expoFive, expoSeven].find? (fun t => t.county_fips ==
        impactHalfOut.county_fips && t.date == impactHalfOut.impact_date)).map
      ExposureRecord.expected_travelers = some impactHalfOut.travelers_impacted ∧
    ((calculate_impacted_travelers [crossHalf] [expoFive, expoSeven]
        (some 0)).countP (fun r => r.county_fips == "X") ≤
      [crossHalf].countP (fun c => c.county_fips == "X")) ∧
    (calculate_impacted_travelers [crossHalf] [expoFive, expoSeven]
        (some 0)).map ImpactRecord.travelers_impacted = [5] := by
  have hout : calculate_impacted_travelers [crossHalf] [expoFive, expoSeven]
      (some 0) = [impactHalfOut] := by
    norm_num [calculate_impacted_travelers, impactDate, timeOfDay, crossHalf,
      expoFive, expoSeven, impactHalfOut, sortImpactByHours, sortByKey,
      insertSorted, List.find?, List.filterMap, beq_iff_eq]
  refine ⟨?_, ?_, ?_⟩
  · exact (C10_first_exposure_match [crossHalf] [expoFive, expoSeven]
      (some 0) "X").1 impactHalfOut
      (by rw [hout]; exact List.mem_cons_self _ _)
  · exact (C10_first_exposure_match [crossHalf] [expoFive, expoSeven]
      (some 0) "X").2
  · rw [hout]
    norm_num [impactHalfOut]

/-- C6: each region yields at most one crossing record, the one built from the
earliest triggering track element: the first triggering point index or, only
when no point triggers, the first triggering segment index; the total record
count never exceeds the region count, and per county id the record count never
exceeds the feature count. -/
theorem C6_at_most_one_earliest (now : Rat) (recs : List TrackRecord)
    (features : List Feature) (F : String) :
    ((get_counties_crossed_with_timing now recs features).length ≤
      features.length) ∧
    ((get_counties_crossed_with_timing now recs features).countP
        (fun c => c.county_fips == F) ≤
      features.countP (fun f => f.id == some F)) ∧
    (∀ c ∈ get_counties_crossed_with_timing now recs features,
      ∃ f ∈ features, ∃ g k,
        (f.geom = GeomSpec.poly g ∨ f.geom = GeomSpec.multi g) ∧
        f.id = some c.county_fips ∧
        firstCrossing g (track_coords recs) (track_lines (track_coords recs)) =
          some k ∧
        isEarliestTrigger g (track_coords recs)
          (track_lines (track_coords recs)) k ∧
        c = recordOfCrossing (start_time now recs) recs c.county_fips k) := by
  unfold get_counties_crossed_with_timing
  split
  · refine ⟨by simp, by simp, ?_⟩
    intro c hc
    cases hc
  · cases hcol : collectCrossings (start_time now recs) recs (track_coords recs)
        (track_lines (track_coords recs)) features with
    | error e =>
      refine ⟨by simp, by simp, ?_⟩
      intro c hc
      cases hc
    | ok l =>
      have hperm := sortByHours_perm l
      refine ⟨?_, ?_, ?_⟩
      · show (sortByHours l).length ≤ features.length
        rw [hperm.length_eq]
        exact collectCrossings_ok_length _ _ _ _ _ _ hcol
      · show (sortByHours l).countP _ ≤ _
        rw [hperm.countP_eq]
        exact collectCrossings_ok_countP _ _ _ _ _ _ _ hcol
      · intro c hc
        replace hc : c ∈ sortByHours l := hc
        have hmem := hperm.mem_iff.mp hc
        obtain ⟨f, hf, hpf⟩ := collectCrossings_ok_mem _ _ _ _ _ _ hcol c hmem
        obtain ⟨g, hg, hid, k, hk, hck⟩ :=
          processFeature_ok_some _ _ _ _ _ _ hpf
        exact ⟨f, hf, g, k, hg, hid, hk,
          firstCrossing_earliest _ _ _ _ hk, hck⟩

/-- C6 witness: the single-feature batch on the dropped-head track, where the
unique record is the one of the earliest trigger, point index 1. -/
theorem C6_at_most_one_earliest_witness :
    ((get_counties_crossed_with_timing 99 [recNoLat, recKeep, recFar]
        [featC]).length ≤ 1) ∧
    (∃ f ∈ [featC], ∃ g k,
      (f.geom = GeomSpec.poly g ∨ f.geom = GeomSpec.multi g) ∧
      f.id = some crossMismatch.county_fips ∧
      firstCrossing g (track_coords [recNoLat, recKeep, recFar])
        (track_lines (track_coords [recNoLat, recKeep, recFar])) = some k ∧
      isEarliestTrigger g (track_coords [recNoLat, recKeep, recFar])
        (track_lines (track_coords [recNoLat, recKeep, recFar])) k ∧
      crossMismatch = recordOfCrossing
        (start_time 99 [recNoLat, recKeep, recFar]) [recNoLat, recKeep, recFar]
        crossMismatch.county_fips k) := by
  have h := C6_at_most_one_earliest 99 [recNoLat, recKeep, recFar] [featC] "C"
  have hout : get_counties_crossed_with_timing 99 [recNoLat, recKeep, recFar]
      [featC] = [crossMismatch] := by
    norm_num [get_counties_crossed_with_timing, track_coords, track_lines,
      start_time, collectCrossings, processFeature, processGeom, firstCrossing,
      recordOfCrossing, mkCrossingRecord, pointCrossTime, segCrossTime,
      sortByHours, sortByKey, insertSorted, hasCoords, numTruthy, pointTrigger,
      segTrigger, round2, roundHalfEven, Int.even_iff, recNoLat, recKeep,
      recFar, featC, geomAt22, blankRecord, crossMismatch, List.filterMap,
      List.findIdx?_cons, List.findIdx?_nil, bne, beq_eq_decide]
  constructor
  · simpa using h.1
  · exact h.2.2 crossMismatch (by rw [hout]; exact List.mem_cons_self _ _)

theorem sum_map_sub_int {α : Type} (l : List α) (f g : α → Int) :
    (l.map fun x => f x - g x).sum = (l.map f).sum - (l.map g).sum := by
  induction l with
  | nil => simp
  | cons a l ih =>
    simp only [List.map_cons, List.sum_cons, ih]
    omega

theorem sum_map_flatMap {α β : Type} (l : List α) (f : α → List β)
    (g : β → Int) :
    ((l.flatMap f).map g).sum = (l.map fun a => ((f a).map g).sum).sum := by
  induction l with
  | nil => rfl
  | cons a l ih =>
    rw [List.flatMap_cons, List.map_append, List.sum_append, ih, List.map_cons,
      List.sum_cons]

theorem filter_key_length_le_one (scen : List ImpactRecord) (key : String)
    (hs : (scen.map ImpactRecord.county_fips).Nodup) :
    (scen.filter fun s => s.county_fips == key).length ≤ 1 := by
  induction scen with
  | nil => simp
  | cons s ss ih =>
    rw [List.map_cons, List.nodup_cons] at hs
    obtain ⟨hnotin, hss⟩ := hs
    rw [List.filter_cons]
    by_cases h : s.county_fips = key
    · have hnil : (ss.filter fun s2 => s2.county_fips == key) = [] := by
        rw [List.filter_eq_nil_iff]
        intro s2 hs2
        simp only [beq_iff_eq]
        intro hcon
        refine hnotin ?_
        rw [h, ← hcon]
        exact List.mem_map_of_mem ImpactRecord.county_fips hs2
      have hb : (s.county_fips == key) = true := by simp [h]
      simp [hb, hnil]
    · have hb : (s.county_fips == key) = false := by simp [h]
      simp only [hb, Bool.false_eq_true, if_false]
      exact ih hss

theorem find?_key_of_mem_nodup (l : List ImpactRecord) (b : ImpactRecord)
    (hb : b ∈ l) (hnd : (l.map ImpactRecord.county_fips).Nodup) :
    l.find? (fun r => r.county_fips == b.county_fips) = some b := by
  induction l with
  | nil => cases hb
  | cons x xs ih =>
    rw [List.map_cons, List.nodup_cons] at hnd
    obtain ⟨hnotin, hxs⟩ := hnd
    rcases List.mem_cons.mp hb with rfl | hmem
    · simp [List.find?_cons]
    · have hx : (x.county_fips == b.county_fips) = false := by
        simp only [beq_eq_false_iff_ne, ne_eq]
        intro hcon
        refine hnotin ?_
        rw [hcon]
        exact List.mem_map_of_mem ImpactRecord.county_fips hmem
      rw [List.find?_cons, hx]
      exact ih hmem hxs

theorem find?_key_eq_none_of_filter_nil (scen : List ImpactRecord)
    (key : String)
    (h : (scen.filter fun s => s.county_fips == key) = []) :
    scen.find? (fun s => s.county_fips == key) = none := by
  rw [List.find?_eq_none]
  exact List.filter_eq_nil_iff.mp h

theorem find?_key_eq_none_of_any_false (base : List ImpactRecord)
    (key : String)
    (h : (base.any fun b => b.county_fips == key) = false) :
    base.find? (fun b => b.county_fips == key) = none := by
  rw [List.find?_eq_none]
  exact List.any_eq_false.mp h

theorem sum_scenVal_matchedRows (scen : List ImpactRecord)
    (b : ImpactRecord) :
    ((matchedRows scen b).map scenVal).sum =
      ((scen.filter fun s => s.county_fips == b.county_fips).map
        fun s => (s.travelers_impacted : Int)).sum := by
  unfold matchedRows
  split
  · next h =>
    rw [List.isEmpty_iff.mp h]
    simp [scenVal]
  · rw [List.map_map]
    rfl

theorem sum_origVal_matchedRows (scen : List ImpactRecord) (b : ImpactRecord)
    (h : (scen.filter fun s => s.county_fips == b.county_fips).length ≤ 1) :
    ((matchedRows scen b).map origVal).sum = (b.travelers_impacted : Int) := by
  unfold matchedRows
  split
  · simp [origVal]
  · next hne =>
    cases hf : scen.filter fun s => s.county_fips == b.county_fips with
    | nil =>
      rw [hf] at hne
      simp at hne
    | cons s rest =>
      cases rest with
      | nil => simp [origVal]
      | cons s2 r2 =>
        rw [hf] at h
        simp only [List.length_cons] at h
        omega

theorem sum_origVal_part1 (base scen : List ImpactRecord)
    (hs : (scen.map ImpactRecord.county_fips).Nodup) :
    ((base.flatMap (matchedRows scen)).map origVal).sum =
      (base.map fun b => (b.travelers_impacted : Int)).sum := by
  rw [sum_map_flatMap]
  induction base with
  | nil => rfl
  | cons b bs ih =>
    rw [List.map_cons, List.sum_cons, List.map_cons, List.sum_cons, ih,
      sum_origVal_matchedRows scen b
        (filter_key_length_le_one scen b.county_fips hs)]

theorem sum_if_key_nodup (base : List ImpactRecord) (key : String) (v : Int)
    (hb : (base.map ImpactRecord.county_fips).Nodup) :
    (base.map fun b => if key == b.county_fips then v else 0).sum =
      if base.any (fun b => b.county_fips == key) then v else 0 := by
  induction base with
  | nil => simp
  | cons b bs ih =>
    rw [List.map_cons, List.nodup_cons] at hb
    obtain ⟨hnotin, hbs⟩ := hb
    rw [List.map_cons, List.sum_cons, List.any_cons, ih hbs]
    by_cases h : b.county_fips = key
    · have h1 : (key == b.county_fips) = true := by simp [h]
      have h2 : (b.county_fips == key) = true := by simp [h]
      have hany : (bs.any fun b2 => b2.county_fips == key) = false := by
        rw [List.any_eq_false]
        intro x hx
        simp only [beq_iff_eq]
        intro hcon
        refine hnotin ?_
        rw [h, ← hcon]
        exact List.mem_map_of_mem ImpactRecord.county_fips hx
      rw [h1, h2, hany]
      simp
    · have h1 : (key == b.county_fips) = false := by
        rw [beq_eq_false_iff_ne]
        exact fun hcon => h hcon.symm
      have h2 : (b.county_fips == key) = false := by
        rw [beq_eq_false_iff_ne]
        exact h
      rw [h1, h2]
      simp

theorem sum_scen_split (base scen : List ImpactRecord)
    (hb : (base.map ImpactRecord.county_fips).Nodup) :
    (base.map fun b =>
        ((scen.filter fun s => s.county_fips == b.county_fips).map
          fun s => (s.travelers_impacted : Int)).sum).sum +
      ((scen.filter fun s =>
          !(base.any fun b => b.county_fips == s.county_fips)).map
        fun s => (s.travelers_impacted : Int)).sum =
      (scen.map fun s => (s.travelers_impacted : Int)).sum := by
  induction scen with
  | nil => simp
  | cons s ss ih =>
    have hsplit : (base.map fun b =>
        (((s :: ss).filter fun s2 => s2.county_fips == b.county_fips).map
          fun s2 => (s2.travelers_impacted : Int)).sum).sum =
        (base.map fun b => if s.county_fips == b.county_fips then
            (s.travelers_impacted : Int) else 0).sum +
        (base.map fun b =>
          ((ss.filter fun s2 => s2.county_fips == b.county_fips).map
            fun s2 => (s2.travelers_impacted : Int)).sum).sum := by
      rw [← List.sum_map_add]
      apply congrArg List.sum
      apply List.map_congr_left
      intro b hbm
      rw [List.filter_cons]
      by_cases hp : (s.county_fips == b.county_fips) = true
      · rw [if_pos hp, if_pos hp, List.map_cons, List.sum_cons]
      · have hp2 : (s.county_fips == b.county_fips) = false := by
          revert hp
          cases s.county_fips == b.county_fips <;> simp
        rw [hp2]
        simp
    rw [hsplit, sum_if_key_nodup base s.county_fips
      (s.travelers_impacted : Int) hb, List.map_cons, List.sum_cons,
      List.filter_cons]
    by_cases hany : (base.any fun b => b.county_fips == s.county_fips) = true
    · rw [hany]
      simp only [Bool.not_true, Bool.false_eq_true, if_false, if_true]
      omega
    · have hany2 : (base.any fun b => b.county_fips == s.county_fips) = false := by
        revert hany
        cases base.any fun b => b.county_fips == s.county_fips <;> simp
      rw [hany2]
      simp only [Bool.not_false, Bool.false_eq_true, if_false, if_true,
        List.map_cons, List.sum_cons]
      omega

theorem sum_scenVal_part1 (base scen : List ImpactRecord) :
    ((base.flatMap (matchedRows scen)).map scenVal).sum =
      (base.map fun b =>
        ((scen.filter fun s => s.county_fips == b.county_fips).map
          fun s => (s.travelers_impacted : Int)).sum).sum := by
  rw [sum_map_flatMap]
  apply congrArg List.sum
  apply List.map_congr_left
  intro b hbm
  exact sum_scenVal_matchedRows scen b

theorem sum_scenVal_scenOnly (base scen : List ImpactRecord) :
    ((scenOnlyRows base scen).map scenVal).sum =
      ((scen.filter fun s =>
          !(base.any fun b => b.county_fips == s.county_fips)).map
        fun s => (s.travelers_impacted : Int)).sum := by
  unfold scenOnlyRows
  rw [List.map_map]
  rfl

theorem sum_origVal_scenOnly (base scen : List ImpactRecord) :
    ((scenOnlyRows base scen).map origVal).sum = 0 := by
  unfold scenOnlyRows
  rw [List.map_map]
  induction scen.filter fun s =>
      !(base.any fun b => b.county_fips == s.county_fips) with
  | nil => rfl
  | cons s l ih =>
    rw [List.map_cons, List.sum_cons, ih]
    rfl

theorem totalTravelers_cast (l : List ImpactRecord) :
    ((totalTravelers l : Nat) : Int) =
      (l.map fun r => (r.travelers_impacted : Int)).sum := by
  unfold totalTravelers
  rw [Nat.cast_list_sum, List.map_map]
  rfl

theorem comparison_sum_diff (base scen : List ImpactRecord)
    (hb : (base.map ImpactRecord.county_fips).Nodup)
    (hs : (scen.map ImpactRecord.county_fips).Nodup) :
    ((comparison_rows base scen).map rowDiff).sum =
      (totalTravelers scen : Int) - (totalTravelers base : Int) := by
  have h1 : ∀ l : List CompRow,
      (l.map rowDiff).sum = (l.map scenVal).sum - (l.map origVal).sum := by
    intro l
    rw [← sum_map_sub_int]
    rfl
  unfold comparison_rows
  rw [List.map_append, List.sum_append, h1, h1, sum_scenVal_part1,
    sum_origVal_part1 base scen hs, sum_scenVal_scenOnly,
    sum_origVal_scenOnly, totalTravelers_cast, totalTravelers_cast]
  have h2 := sum_scen_split base scen hb
  omega

theorem comparison_row_diff (base scen : List ImpactRecord)
    (hb : (base.map ImpactRecord.county_fips).Nodup)
    (hs : (scen.map ImpactRecord.county_fips).Nodup) (r : CompRow)
    (hr : r ∈ comparison_rows base scen) :
    rowDiff r = findCount scen r.county_fips - findCount base r.county_fips := by
  unfold comparison_rows at hr
  rcases List.mem_append.mp hr with hr1 | hr2
  · obtain ⟨b, hbmem, hrb⟩ := List.mem_flatMap.mp hr1
    unfold matchedRows at hrb
    split at hrb
    · next hemp =>
      rcases List.mem_singleton.mp hrb with rfl
      have hfb : base.find? (fun x => x.county_fips == b.county_fips) = some b :=
        find?_key_of_mem_nodup base b hbmem hb
      have hfs : scen.find? (fun x => x.county_fips == b.county_fips) = none :=
        find?_key_eq_none_of_filter_nil scen b.county_fips
          (List.isEmpty_iff.mp hemp)
      simp [rowDiff, findCount, hfb, hfs]
    · obtain ⟨s, hsmem, hmk⟩ := List.mem_map.mp hrb
      obtain ⟨hsin, hskey⟩ := List.mem_filter.mp hsmem
      have hkey : s.county_fips = b.county_fips := by simpa using hskey
      have hfb : base.find? (fun x => x.county_fips == b.county_fips) = some b :=
        find?_key_of_mem_nodup base b hbmem hb
      have hfs : scen.find? (fun x => x.county_fips == s.county_fips) = some s :=
        find?_key_of_mem_nodup scen s hsin hs
      rw [hkey] at hfs
      rw [← hmk]
      simp [rowDiff, findCount, hfb, hfs]
  · unfold scenOnlyRows at hr2
    obtain ⟨s, hsmem, hmk⟩ := List.mem_map.mp hr2
    obtain ⟨hsin, hsno⟩ := List.mem_filter.mp hsmem
    have hany : (base.any fun b => b.county_fips == s.county_fips) = false := by
      simpa using hsno
    have hfb : base.find? (fun x => x.county_fips == s.county_fips) = none :=
      find?_key_eq_none_of_any_false base s.county_fips hany
    have hfs : scen.find? (fun x => x.county_fips == s.county_fips) = some s :=
      find?_key_of_mem_nodup scen s hsin hs
    rw [← hmk]
    simp [rowDiff, findCount, hfb, hfs]

theorem matchedRows_key_exists (scen : List ImpactRecord) (b : ImpactRecord) :
    ∃ r ∈ matchedRows scen b, r.county_fips = b.county_fips := by
  unfold matchedRows
  split
  · exact ⟨_, List.mem_singleton_self _, rfl⟩
  · next hne =>
    cases hf : scen.filter fun s => s.county_fips == b.county_fips with
    | nil =>
      rw [hf] at hne
      simp at hne
    | cons s rest =>
      exact ⟨_, List.mem_map_of_mem _ (List.mem_cons_self s rest), rfl⟩

theorem comparison_keys (base scen : List ImpactRecord) (key : String) :
    (∃ r ∈ comparison_rows base scen, r.county_fips = key) ↔
      (key ∈ base.map ImpactRecord.county_fips ∨
        key ∈ scen.map ImpactRecord.county_fips) := by
  constructor
  · rintro ⟨r, hr, rfl⟩
    unfold comparison_rows at hr
    rcases List.mem_append.mp hr with hr1 | hr2
    · obtain ⟨b, hbmem, hrb⟩ := List.mem_flatMap.mp hr1
      left
      unfold matchedRows at hrb
      split at hrb
      · rcases List.mem_singleton.mp hrb with rfl
        exact List.mem_map_of_mem _ hbmem
      · obtain ⟨s, hsmem, hmk⟩ := List.mem_map.mp hrb
        rw [← hmk]
        exact List.mem_map_of_mem _ hbmem
    · right
      unfold scenOnlyRows at hr2
      obtain ⟨s, hsmem, hmk⟩ := List.mem_map.mp hr2
      rw [← hmk]
      exact List.mem_map_of_mem _ (List.mem_filter.mp hsmem).1
  · intro h
    have hbase : key ∈ base.map ImpactRecord.county_fips →
        ∃ r ∈ comparison_rows base scen, r.county_fips = key := by
      intro hkb
      obtain ⟨b, hbmem, hkey⟩ := List.mem_map.mp hkb
      obtain ⟨r, hrmem, hrkey⟩ := matchedRows_key_exists scen b
      refine ⟨r, ?_, by rw [hrkey, hkey]⟩
      unfold comparison_rows
      exact List.mem_append_left _
        (List.mem_flatMap.mpr ⟨b, hbmem, hrmem⟩)
    rcases h with hkb | hks
    · exact hbase hkb
    · obtain ⟨s, hsmem, hkey⟩ := List.mem_map.mp hks
      by_cases hany : (base.any fun b => b.county_fips == s.county_fips) = true
      · obtain ⟨b, hbmem, hbkey⟩ := List.any_eq_true.mp hany
        refine hbase ?_
        rw [← hkey]
        have : b.county_fips = s.county_fips := by simpa using hbkey
        rw [← this]
        exact List.mem_map_of_mem _ hbmem
      · have hany2 : (base.any fun b => b.county_fips == s.county_fips) = false := by
          revert hany
          cases base.any fun b => b.county_fips == s.county_fips <;> simp
        refine ⟨{ county_fips := s.county_fips, original_travelers := none
                  scenario_travelers := some s.travelers_impacted }, ?_, hkey⟩
        unfold comparison_rows
        refine List.mem_append_right _ ?_
        unfold scenOnlyRows
        refine List.mem_map_of_mem _ ?_
        rw [List.mem_filter]
        exact ⟨hsmem, by rw [hany2]; rfl⟩

/-- C7: with at most one impact record per county on each side, the comparison
is an outer join on county id: a county appears among the rows exactly when it
has a row on either side, each row difference equals the scenario count minus
the baseline count of its county with a missing side contributing 0, and the
differences sum to the scenario total minus the baseline total. -/
theorem C7_outer_join_diff (base scen : List ImpactRecord)
    (hb : (base.map ImpactRecord.county_fips).Nodup)
    (hs : (scen.map ImpactRecord.county_fips).Nodup) :
    (∀ key, (∃ r ∈ comparison_rows base scen, r.county_fips = key) ↔
      (key ∈ base.map ImpactRecord.county_fips ∨
        key ∈ scen.map ImpactRecord.county_fips)) ∧
    (∀ r ∈ comparison_rows base scen,
      rowDiff r = findCount scen r.county_fips - findCount base r.county_fips) ∧
    ((comparison_rows base scen).map rowDiff).sum =
      (totalTravelers scen : Int) - (totalTravelers base : Int) :=
  ⟨fun key => comparison_keys base scen key,
   fun r hr => comparison_row_diff base scen hb hs r hr,
   comparison_sum_diff base scen hb hs⟩

/-- C7 witness: baseline county X with 5 travelers against scenario county Y
with 7: the differences sum to 2, each county of either side appears, and the
single-row instances check out numerically. -/
theorem C7_outer_join_diff_witness :
    (((comparison_rows [impactX5] [impactY7]).map rowDiff).sum =
      (totalTravelers [impactY7] : Int) - (totalTravelers [impactX5] : Int)) ∧
    ((∃ r ∈ comparison_rows [impactX5] [impactY7], r.county_fips = "Y") ↔
      ("Y" ∈ [impactX5].map ImpactRecord.county_fips ∨
        "Y" ∈ [impactY7].map ImpactRecord.county_fips)) ∧
    ((comparison_rows [impactX5] [impactY7]).map rowDiff).sum = 2 := by
  have h := C7_outer_join_diff [impactX5] [impactY7]
    (by simp [impactX5]) (by simp [impactY7])
  refine ⟨h.2.2, h.1 "Y", ?_⟩
  rw [h.2.2]
  norm_num [totalTravelers, impactX5, impactY7]

end WeatherDemo
